import Mathlib

/-!
Shallow embedding of the ClickHouse ⇄ flat-file ingestion backend
(`src/unnamed/part_002`, an Express server).  Pure string manipulation is
embedded directly; the database client, the filesystem and the CSV stream
are abstracted as explicit oracles/parameters, and every handler is a pure
function that also reports the observable effects (liveness queries issued,
statements executed, files written) needed by the specification.
-/

/-! ## Character-list string utilities (JS `String.prototype` semantics) -/

/-- The single-quote character, written via its code point. -/
def squote : Char := Char.ofNat 39

/-- Boolean prefix test on character lists (JS
`str.slice(0, pre.length) === pre`, the `startsWith` helper at
part_002 line 35). -/
def isPre : List Char → List Char → Bool
  | [], _ => true
  | _ :: _, [] => false
  | c :: cs, d :: ds => c = d && isPre cs ds

/-- `startsWith str pre` mirrors the source helper `startsWith(str, prefix)`. -/
def startsWith (str pre : String) : Bool := isPre pre.data str.data

/-- Does `pat` occur as a contiguous substring? -/
def hasSubstr (pat : List Char) : List Char → Bool
  | [] => isPre pat []
  | c :: cs => isPre pat (c :: cs) || hasSubstr pat cs

/-- JS `String.prototype.replace` with a *string* pattern: replaces only the
first occurrence of `pat` by `rep` (the source relies on this at
part_002 line 55). -/
def replaceFirst (pat rep : List Char) : List Char → List Char
  | [] => if pat = [] then rep else []
  | c :: cs =>
      if isPre pat (c :: cs) then rep ++ (c :: cs).drop pat.length
      else c :: replaceFirst pat rep cs

/-- Split a character list on a separator; auxiliary form returning the first
segment and the remaining segments (never empty overall). -/
def splitAux (sep : Char) : List Char → List Char × List (List Char)
  | [] => ([], [])
  | c :: cs =>
      let p := splitAux sep cs
      if c = sep then ([], p.1 :: p.2) else (c :: p.1, p.2)

/-- All segments of a character list split on `sep` (like JS `split`). -/
def splitOnChar (sep : Char) (l : List Char) : List (List Char) :=
  (splitAux sep l).1 :: (splitAux sep l).2

/-- Node `path.basename` (POSIX): drop trailing separators, then take the
final path component.  Equivalently: the last segment of the `/`-split after
discarding trailing empty segments; `""` when nothing remains. -/
def basename (p : String) : String :=
  match (splitOnChar (Char.ofNat 47) p.data).reverse.dropWhile List.isEmpty with
  | [] => ""
  | s :: _ => String.mk s

/-- JS `x || d` for an optional string: `undefined`/`null`/`""` are falsy. -/
def jsOrDefault (o : Option String) (d : String) : String :=
  match o with
  | none => d
  | some s => if s = "" then d else s

/-- JS falsiness of an optional string request field. -/
def jsFalsy (o : Option String) : Bool :=
  match o with
  | none => true
  | some s => s = ""

/-- JS `String.prototype.trim`: drop whitespace from both ends. -/
def jsTrim (s : String) : String :=
  String.mk ((s.data.dropWhile Char.isWhitespace).reverse.dropWhile Char.isWhitespace).reverse

/-! ## Connection manager (part_002 lines 41–110) -/

/-- The object stored in the module-level `connectionConfig` variable
(part_002 lines 60–65). -/
structure ConnectionConfig where
  url : String
  username : String
  password : String
  database : String
deriving DecidableEq, Repr

/-- The process-wide mutable state: whether a client reference is present
(`client`), and the stored `connectionConfig`. -/
structure ServerState where
  client : Bool
  connectionConfig : Option ConnectionConfig
deriving DecidableEq, Repr

/-- Host normalisation in the `/connect` handler (part_002 lines 53–56):
trim, then if the trimmed host starts with an HTTP(S) scheme, delete the
first occurrence of `https://` and then the first occurrence of `http://`. -/
def cleanHost (host : String) : String :=
  let t := jsTrim host
  if startsWith t "https://" || startsWith t "http://" then
    String.mk (replaceFirst ("http://".data) [] (replaceFirst ("https://".data) [] t.data))
  else t

/-- The client URL built at part_002 line 61: always the `https` scheme. -/
def buildUrl (host port : String) : String :=
  "https://" ++ cleanHost host ++ ":" ++ port

/-- The body of a `/connect` request. -/
structure ConnectRequest where
  host : String
  port : String
  database : String
  username : String
  password : String
deriving DecidableEq, Repr

/-- The `connectionConfig` object assembled from a request
(part_002 lines 60–65). -/
def mkConfig (req : ConnectRequest) : ConnectionConfig :=
  { url := buildUrl req.host req.port
    username := req.username
    password := req.password
    database := req.database }

/-- Outcome reported by the `/connect` handler. -/
inductive ConnectResponse where
  | success
  | failure
deriving DecidableEq, Repr

/-- The `/connect` handler (part_002 lines 45–87).  `livenessOk` is the oracle
for the `SELECT 1` liveness query against the freshly created client.  Note
that `connectionConfig` is assigned *before* the liveness test, so it is
replaced on every attempt, successful or not; on failure only `client` is
cleared. -/
def connect (livenessOk : Bool) (_s : ServerState) (req : ConnectRequest) :
    ConnectResponse × ServerState :=
  let cfg := mkConfig req
  if livenessOk then
    (ConnectResponse.success, { client := true, connectionConfig := some cfg })
  else
    (ConnectResponse.failure, { client := false, connectionConfig := some cfg })

/-- `ensureConnection` (part_002 lines 90–110).  `reconnectOk` is the oracle
for the liveness query of the single reconnect attempt.  Returns the boolean
result, the new state, and the number of liveness queries issued against the
store during the call. -/
def ensureConnection (reconnectOk : Bool) (s : ServerState) :
    Bool × ServerState × Nat :=
  match s.client, s.connectionConfig with
  | false, some cfg =>
      if reconnectOk then
        (true, { client := true, connectionConfig := some cfg }, 1)
      else
        (false, { client := false, connectionConfig := some cfg }, 1)
  | c, _ => (c, s, 0)

/-- Repeated `ensure()` calls: results, final state, total liveness queries. -/
def ensureRuns (reconnectOk : Bool) : Nat → ServerState → List Bool × ServerState × Nat
  | 0, s => ([], s, 0)
  | n + 1, s =>
      let r1 := ensureConnection reconnectOk s
      let r2 := ensureRuns reconnectOk n r1.2.1
      (r1.1 :: r2.1, r2.2.1, r1.2.2 + r2.2.2)

/-! ## Rows and queries -/

/-- A query-result row / parsed CSV record: a JS object seen as an ordered
association list of string keys to string values (keys unique, in insertion
order). -/
abbrev Row := List (String × String)

/-- JS `Object.keys`. -/
def rowKeys (r : Row) : List String := r.map Prod.fst

/-- JS property access `row[k]` for an association-list row. -/
def rowLookup (r : Row) (k : String) : Option String :=
  (r.find? (fun p => p.1 = k)).map Prod.snd

/-- A `SELECT` statement as issued by the backend: the projection text, the
table name, and an optional `LIMIT`. -/
structure SelectQuery where
  projection : String
  table : String
  lim : Option Nat
deriving DecidableEq, Repr

/-- The projection clause built from a column list:
`columns.length > 0 ? columns.join(", ") : "*"`. -/
def projectionOf (cols : List String) : String :=
  if cols.length > 0 then String.intercalate ", " cols else "*"

/-- Store model for `SELECT` queries: each table holds a row sequence in
store-determined order; a `LIMIT n` query returns at most the first `n` rows.
(Column projection is applied store-side and is not modelled: rows are
returned as the store produces them.) -/
def runSelect (storeTable : String → List Row) (q : SelectQuery) : List Row :=
  match q.lim with
  | some n => (storeTable q.table).take n
  | none => storeTable q.table

/-! ## Preview handler (part_002 lines 157–177) -/

/-- The query text built by the `/preview` handler:
`SELECT ${columnsStr} FROM ${table} LIMIT 100`. -/
def previewQuery (table : String) (columns : List String) : SelectQuery :=
  { projection := projectionOf columns, table := table, lim := some 100 }

/-- The `/preview` handler: requires `ensureConnection` (oracle outcome
`ensureOk`), then runs the limited query against the store. -/
def previewHandler (ensureOk : Bool) (storeTable : String → List Row)
    (table : String) (columns : List String) : Except String (List Row) :=
  if ensureOk then Except.ok (runSelect storeTable (previewQuery table columns))
  else Except.error "Not connected to ClickHouse"

/-! ## Export: `clickhouseToFlatFile` (part_002 lines 196–260) -/

/-- Result object of a successful export (`filePath` carries the sanitized
file name when a file was written, as at part_002 line 257). -/
structure ExportResult where
  recordCount : Nat
  filePath : Option String
deriving DecidableEq, Repr

/-- The CSV file produced by `createObjectCsvWriter`/`writeRecords`: its name
inside the exports directory, its header (the `id`s, which equal the
`title`s), and one rendered value list per record. -/
structure WrittenFile where
  name : String
  header : List String
  rows : List (List String)
deriving DecidableEq, Repr

/-- csv-writer cell rendering: the record's value at the header field, the
empty string when the field is absent (`undefined`). -/
def renderCell (r : Row) (k : String) : String := (rowLookup r k).getD ""

/-- csv-writer record rendering: one cell per header field, in header order;
fields of `r` outside the header are not rendered at all. -/
def renderRow (hdr : List String) (r : Row) : List String := hdr.map (renderCell r)

/-- The per-table accumulation loop of `clickhouseToFlatFile` (part_002
lines 210–227): for each table, in order, run an unlimited `SELECT` with the
table's projection (`columns[table] || []`, modelled by `columnsFor`) through
the oracle `runQ`, concatenate the rows and sum the counts; the first failing
query aborts the whole operation with its error. -/
def gatherRows (runQ : SelectQuery → Except String (List Row))
    (columnsFor : String → List String) :
    List String → Except String (List Row × Nat)
  | [] => Except.ok ([], 0)
  | t :: ts =>
      match runQ { projection := projectionOf (columnsFor t), table := t, lim := none } with
      | Except.error e => Except.error e
      | Except.ok rows =>
          match gatherRows runQ columnsFor ts with
          | Except.error e => Except.error e
          | Except.ok (rest, n) => Except.ok (rows ++ rest, rows.length + n)

/-- `clickhouseToFlatFile` (part_002 lines 196–260).  `ensureOk` is the
outcome of its `ensureConnection` call.  Returns the result object together
with the file written under the exports directory (`none` when no file is
written).  The file name is `path.basename(targetFile || "export.csv")`
(line 241); the header is `Object.keys(results[0])` (line 244). -/
def clickhouseToFlatFile (ensureOk : Bool)
    (runQ : SelectQuery → Except String (List Row))
    (columnsFor : String → List String)
    (tables : List String) (targetFile : Option String) :
    Except String (ExportResult × Option WrittenFile) :=
  if ensureOk then
    match gatherRows runQ columnsFor tables with
    | Except.error e => Except.error e
    | Except.ok (results, recordCount) =>
        match results with
        | [] => Except.ok ({ recordCount := 0, filePath := none }, none)
        | r0 :: rest =>
            let safeFileName := basename (jsOrDefault targetFile "export.csv")
            let hdr := rowKeys r0
            Except.ok
              ({ recordCount := recordCount, filePath := some safeFileName },
               some { name := safeFileName
                      header := hdr
                      rows := (r0 :: rest).map (renderRow hdr) })
  else Except.error "Not connected to ClickHouse. Please connect first."

/-- The `/download/:filename` handler's name sanitisation (part_002
line 394): only the basename of the supplied filename is looked up inside
the exports directory. -/
def downloadSafeName (filename : String) : String := basename filename

/-! ## Import: `flatFileToClickhouse` (part_002 lines 263–321) -/

/-- The structured content of the conditional create-table statement built at
part_002 lines 287–294. -/
structure CreateTableStmt where
  table : String
  ifNotExists : Bool
  columnDefs : List (String × String)
  engine : String
  orderBy : String
deriving DecidableEq, Repr

/-- The structured content of one generated `INSERT` statement (part_002
lines 297–306): target table, `Object.keys(row)` as column list, and the
quoted, quote-escaped `Object.values(row)`. -/
structure InsertStmt where
  table : String
  columnNames : List String
  values : List String
deriving DecidableEq, Repr

/-- JS `val.replace(/'/g, "''")`: double every single quote (global). -/
def escapeQuotes : List Char → List Char
  | [] => []
  | c :: cs =>
      if c = squote then squote :: squote :: escapeQuotes cs
      else c :: escapeQuotes cs

/-- One rendered insert value: the escaped value wrapped in single quotes. -/
def quoteValue (v : String) : String :=
  String.singleton squote ++ String.mk (escapeQuotes v.data) ++ String.singleton squote

/-- The `INSERT` statement generated for one record. -/
def mkInsert (tbl : String) (r : Row) : InsertStmt :=
  { table := tbl
    columnNames := rowKeys r
    values := r.map (fun p => quoteValue p.2) }

/-- The create-table statement inferred from the first parsed record
(part_002 lines 284–294): every column of `Object.keys(rows[0])` typed
`String`, `CREATE TABLE IF NOT EXISTS`, `ENGINE = MergeTree()`,
`ORDER BY tuple()` (no explicit ordering key). -/
def createStmtFor (tbl : String) (r0 : Row) : CreateTableStmt :=
  { table := tbl
    ifNotExists := true
    columnDefs := (rowKeys r0).map (fun c => (c, "String"))
    engine := "MergeTree()"
    orderBy := "tuple()" }

/-- Statements issued against the store during one import. -/
structure ImportTrace where
  created : List CreateTableStmt
  attempted : List InsertStmt
  committed : List InsertStmt
deriving DecidableEq, Repr

/-- Outcome of `flatFileToClickhouse`: the resolved result, or the rejection
(`error k` models the promise rejecting with the store error raised by the
`k`-th insert, 0-based; `createFailed` that of the create statement). -/
inductive ImportOutcome where
  | ok (recordCount : Nat)
  | error (failedIndex : Nat)
  | createFailed
  | notConnected
deriving DecidableEq, Repr

/-- The sequential insert loop (part_002 lines 297–306): one `INSERT` per
record, in file order, each awaited before the next; the first failure stops
the loop.  `insertOk i` is the store oracle for the `i`-th issued insert.
Returns (attempted statements, committed statements, failing index). -/
def insertLoop (insertOk : Nat → Bool) (tbl : String) :
    List Row → Nat → List InsertStmt × List InsertStmt × Option Nat
  | [], _ => ([], [], none)
  | r :: rs, i =>
      let stmt := mkInsert tbl r
      if insertOk i then
        let rec2 := insertLoop insertOk tbl rs (i + 1)
        (stmt :: rec2.1, stmt :: rec2.2.1, rec2.2.2)
      else ([stmt], [], some i)

/-- `flatFileToClickhouse` (part_002 lines 263–321) over the already-parsed
record sequence `rows` (the CSV stream is abstracted; a stream error rejects
before this logic runs).  `ensureOk` is the outcome of its
`ensureConnection` call, `createOk` that of the create-table exec. -/
def flatFileToClickhouse (ensureOk createOk : Bool) (insertOk : Nat → Bool)
    (rows : List Row) (targetTable : String) : ImportTrace × ImportOutcome :=
  if ensureOk then
    match rows with
    | [] => ({ created := [], attempted := [], committed := [] }, ImportOutcome.ok 0)
    | r0 :: _ =>
        let cstmt := createStmtFor targetTable r0
        if createOk then
          let r := insertLoop insertOk targetTable rows 0
          match r.2.2 with
          | some i =>
              ({ created := [cstmt], attempted := r.1, committed := r.2.1 },
               ImportOutcome.error i)
          | none =>
              ({ created := [cstmt], attempted := r.1, committed := r.2.1 },
               ImportOutcome.ok rows.length)
        else ({ created := [cstmt], attempted := [], committed := [] },
              ImportOutcome.createFailed)
  else ({ created := [], attempted := [], committed := [] }, ImportOutcome.notConnected)

/-! ## Ingest dispatch (part_002 lines 324–388) -/

/-- The request fields the `/ingest` handler branches on. -/
structure IngestRequest where
  source : String
  target : String
  filePath : Option String
  targetTable : Option String
deriving DecidableEq, Repr

/-- Where the `/ingest` handler's control flow ends up before any transfer
work: a 400 rejection, or dispatch into one of the two transfer functions
(the only places where further database statements or file I/O happen). -/
inductive IngestResponse where
  | notConnected
  | invalidCombination
  | noFilePath
  | noTargetTable
  | dispatchedExport
  | dispatchedImport
deriving DecidableEq, Repr

/-- The `/ingest` handler up to transfer dispatch (part_002 lines 336–373).
When `source` or `target` equals `"clickhouse"`, `ensureConnection` runs
*first* (lines 338–347) — before the direction check — and its failure is
reported as not-connected.  Returns the response, the state after the
optional `ensureConnection` call, and the number of liveness queries issued.
File reads/writes and further statements occur only past the two
`dispatched*` outcomes. -/
def ingestDispatch (reconnectOk : Bool) (s : ServerState) (req : IngestRequest) :
    IngestResponse × ServerState × Nat :=
  let step :=
    if req.source = "clickhouse" || req.target = "clickhouse" then
      let r := ensureConnection reconnectOk s
      if r.1 then (none, r.2.1, r.2.2)
      else (some IngestResponse.notConnected, r.2.1, r.2.2)
    else (none, s, 0)
  match step with
  | (some resp, s1, q) => (resp, s1, q)
  | (none, s1, q) =>
      if req.source = "clickhouse" && req.target = "flatfile" then
        (IngestResponse.dispatchedExport, s1, q)
      else if req.source = "flatfile" && req.target = "clickhouse" then
        if jsFalsy req.filePath then (IngestResponse.noFilePath, s1, q)
        else if jsFalsy req.targetTable then (IngestResponse.noTargetTable, s1, q)
        else (IngestResponse.dispatchedImport, s1, q)
      else (IngestResponse.invalidCombination, s1, q)

/-! ## Supporting lemmas -/

theorem strDataAppend (a b : String) : (a ++ b).data = a.data ++ b.data := by
  cases a
  cases b
  rfl

theorem strMkData (s : String) : String.mk s.data = s := by
  cases s
  rfl

theorem strAppendAssoc (a b c : String) : a ++ b ++ c = a ++ (b ++ c) := by
  cases a with | mk la =>
  cases b with | mk lb =>
  cases c with | mk lc =>
  show String.mk (la ++ lb ++ lc) = String.mk (la ++ (lb ++ lc))
  rw [List.append_assoc]

theorem isPre_append_self (p : List Char) : ∀ s, isPre p (p ++ s) = true := by
  induction p with
  | nil => intro s; rfl
  | cons c cs ih => intro s; simp [isPre, ih]

theorem isPre_imp_hasSubstr (pat l : List Char) (h : isPre pat l = true) :
    hasSubstr pat l = true := by
  cases l with
  | nil => simpa [hasSubstr] using h
  | cons c cs => simp [hasSubstr, h]

theorem replaceFirst_no_occurrence (pat rep : List Char) :
    ∀ l, hasSubstr pat l = false → replaceFirst pat rep l = l := by
  intro l
  induction l with
  | nil =>
      intro h
      cases pat with
      | nil => simp [hasSubstr, isPre] at h
      | cons p ps => simp [replaceFirst]
  | cons c cs ih =>
      intro h
      rw [hasSubstr, Bool.or_eq_false_iff] at h
      rw [replaceFirst, if_neg (by simp [h.1]), ih h.2]

theorem replaceFirst_strip_self (rep : List Char) (p : List Char) (hp : p ≠ []) :
    ∀ s, replaceFirst p rep (p ++ s) = rep ++ s := by
  intro s
  cases p with
  | nil => exact absurd rfl hp
  | cons c cs =>
      show replaceFirst (c :: cs) rep (c :: (cs ++ s)) = rep ++ s
      rw [replaceFirst, if_pos]
      · rw [show c :: (cs ++ s) = (c :: cs) ++ s from rfl, List.drop_left]
      · exact isPre_append_self (c :: cs) s

theorem splitAux_sep_free (sep : Char) :
    ∀ l, sep ∉ (splitAux sep l).1 ∧ ∀ seg ∈ (splitAux sep l).2, sep ∉ seg := by
  intro l
  induction l with
  | nil => exact ⟨List.not_mem_nil sep, by simp [splitAux]⟩
  | cons c cs ih =>
      by_cases hc : c = sep
      · constructor
        · simp [splitAux, hc]
        · intro seg hseg
          rw [splitAux] at hseg
          simp only [hc, if_pos rfl] at hseg
          rcases List.mem_cons.1 hseg with h1 | h2
          · exact h1 ▸ ih.1
          · exact ih.2 seg h2
      · constructor
        · rw [splitAux]
          simp only [if_neg hc]
          intro hmem
          rcases List.mem_cons.1 hmem with h1 | h2
          · exact hc h1.symm
          · exact ih.1 h2
        · intro seg hseg
          rw [splitAux] at hseg
          simp only [if_neg hc] at hseg
          exact ih.2 seg hseg

theorem mem_of_mem_dropWhile {α : Type} (p : α → Bool) :
    ∀ (l : List α) (a : α), a ∈ l.dropWhile p → a ∈ l := by
  intro l
  induction l with
  | nil => intro a h; simp at h
  | cons c cs ih =>
      intro a h
      rw [List.dropWhile] at h
      by_cases hc : p c = true
      · simp only [hc] at h
        exact List.mem_cons_of_mem c (ih a h)
      · simp only [Bool.not_eq_true] at hc
        simp only [hc] at h
        exact h

theorem basename_sep_free (s : String) : Char.ofNat 47 ∉ (basename s).data := by
  rw [basename]
  split
  · intro h
    simp at h
  · rename_i seg rest heq
    intro hmem
    have hseg : seg ∈ (splitOnChar (Char.ofNat 47) s.data).reverse.dropWhile List.isEmpty := by
      rw [heq]; exact List.mem_cons_self seg rest
    have hseg2 : seg ∈ (splitOnChar (Char.ofNat 47) s.data).reverse :=
      mem_of_mem_dropWhile List.isEmpty _ seg hseg
    have hseg3 : seg ∈ splitOnChar (Char.ofNat 47) s.data := List.mem_reverse.1 hseg2
    rw [splitOnChar] at hseg3
    rcases List.mem_cons.1 hseg3 with h1 | h2
    · exact (splitAux_sep_free (Char.ofNat 47) s.data).1 (h1 ▸ hmem)
    · exact (splitAux_sep_free (Char.ofNat 47) s.data).2 seg h2 hmem

theorem ensureRuns_of_live (ok : Bool) :
    ∀ (n : Nat) (s : ServerState), s.client = true →
      ensureRuns ok n s = (List.replicate n true, s, 0) := by
  intro n
  induction n with
  | zero => intro s h; rfl
  | succ n ih =>
      intro s h
      obtain ⟨c, cc⟩ := s
      simp only at h
      subst h
      have h1 : ensureConnection ok { client := true, connectionConfig := cc } =
          (true, { client := true, connectionConfig := cc }, 0) := by
        cases cc <;> rfl
      rw [ensureRuns, h1, ih { client := true, connectionConfig := cc } rfl]
      simp [List.replicate_succ]

/-- C2 counterexample: a `connect` whose liveness check fails still replaces
the stored config — the previously stored config (here from an earlier
successful connect) is *not* retained. -/
theorem connect_failure_overwrites_stored_config_cex :
    (connect false
        { client := true,
          connectionConfig := some
            { url := "https://oldhost:8443", username := "u1", password := "p1",
              database := "d1" } }
        { host := "newhost", port := "9000", database := "d2", username := "u2",
          password := "p2" }).2.connectionConfig ≠
      some { url := "https://oldhost:8443", username := "u1", password := "p1",
             database := "d1" } := by
  decide

/-- C2 (amended): the stored config is replaced wholesale on *every* connect
attempt — it is assigned before the liveness check — and on failure the
client reference is cleared while the config of the failed attempt (not the
previous one) remains stored, so a later `ensure()` retries with the failed
attempt's credentials. -/
theorem connect_replaces_config_on_every_attempt (s : ServerState) (req : ConnectRequest) :
    connect true s req =
      (ConnectResponse.success, { client := true, connectionConfig := some (mkConfig req) }) ∧
    connect false s req =
      (ConnectResponse.failure, { client := false, connectionConfig := some (mkConfig req) }) :=
  ⟨rfl, rfl⟩

/-- C6: `ensure()` returns true at once with no liveness query when a client
reference exists; with no client but a stored config it performs exactly one
reconnect liveness query, leaving the client absent and returning false on
failure; with no config it returns false with no query; and after a
successful `connect`, any number of `ensure()` calls return true with zero
further liveness queries. -/
theorem ensure_connection_lifecycle (ok : Bool) (s : ServerState)
    (cfg : ConnectionConfig) (req : ConnectRequest) (n : Nat) :
    (s.client = true → ensureConnection ok s = (true, s, 0)) ∧
    (s.client = false → s.connectionConfig = some cfg →
      ensureConnection false s =
          (false, { client := false, connectionConfig := some cfg }, 1) ∧
      ensureConnection true s =
          (true, { client := true, connectionConfig := some cfg }, 1)) ∧
    (s.client = false → s.connectionConfig = none →
      ensureConnection ok s = (false, s, 0)) ∧
    ensureRuns ok n (connect true s req).2 =
      (List.replicate n true, (connect true s req).2, 0) := by
  obtain ⟨c, cc⟩ := s
  refine ⟨?_, ?_, ?_, ?_⟩
  · intro h
    simp only at h
    subst h
    cases cc <;> rfl
  · intro h hcc
    simp only at h hcc
    subst h
    subst hcc
    exact ⟨rfl, rfl⟩
  · intro h hcc
    simp only at h hcc
    subst h
    subst hcc
    rfl
  · exact ensureRuns_of_live ok n _ rfl

theorem ensure_connection_lifecycle_witness :
    ensureConnection true { client := true, connectionConfig := none } =
      (true, { client := true, connectionConfig := none }, 0) ∧
    ensureConnection false
        { client := false,
          connectionConfig := some
            { url := "https://h:1", username := "u", password := "p", database := "d" } } =
      (false,
       { client := false,
         connectionConfig := some
           { url := "https://h:1", username := "u", password := "p", database := "d" } },
       1) ∧
    ensureRuns true 3
        (connect true { client := false, connectionConfig := none }
          { host := "h", port := "1", database := "d", username := "u",
            password := "p" }).2 =
      ([true, true, true],
       (connect true { client := false, connectionConfig := none }
          { host := "h", port := "1", database := "d", username := "u",
            password := "p" }).2,
       0) := by
  have h1 := ensure_connection_lifecycle true
    { client := true, connectionConfig := none }
    { url := "https://h:1", username := "u", password := "p", database := "d" }
    { host := "h", port := "1", database := "d", username := "u", password := "p" } 3
  have h2 := ensure_connection_lifecycle false
    { client := false,
      connectionConfig := some
        { url := "https://h:1", username := "u", password := "p", database := "d" } }
    { url := "https://h:1", username := "u", password := "p", database := "d" }
    { host := "h", port := "1", database := "d", username := "u", password := "p" } 0
  have h3 := ensure_connection_lifecycle true
    { client := false, connectionConfig := none }
    { url := "https://h:1", username := "u", password := "p", database := "d" }
    { host := "h", port := "1", database := "d", username := "u", password := "p" } 3
  refine ⟨h1.1 rfl, (h2.2.1 rfl rfl).1, ?_⟩
  have h4 := h3.2.2.2
  simpa using h4

/-- C10: the client URL is always built with the `https://` scheme, whatever
the caller supplied; a host supplied with a leading `http://` prefix has that
prefix stripped and the host is then bound over https. -/
theorem connect_url_always_https (host port h : String)
    (htrim : jsTrim ("http://" ++ h) = "http://" ++ h)
    (hno : hasSubstr ("https://".data) (("http://" ++ h).data) = false) :
    (∃ rest, buildUrl host port = "https://" ++ rest) ∧
    buildUrl ("http://" ++ h) port = "https://" ++ h ++ ":" ++ port := by
  constructor
  · exact ⟨cleanHost host ++ ":" ++ port, by simp [buildUrl, strAppendAssoc]⟩
  · have hch : cleanHost ("http://" ++ h) = h := by
      rw [cleanHost]
      simp only [htrim]
      have hpre1 : startsWith ("http://" ++ h) "https://" = false := by
        rw [startsWith]
        by_contra hcon
        rw [Bool.not_eq_false] at hcon
        rw [isPre_imp_hasSubstr _ _ hcon] at hno
        exact Bool.true_eq_false.mp hno
      have hpre2 : startsWith ("http://" ++ h) "http://" = true := by
        rw [startsWith, strDataAppend]
        exact isPre_append_self _ _
      rw [hpre1, hpre2]
      simp only [Bool.false_or, if_true]
      rw [replaceFirst_no_occurrence _ _ _ hno, strDataAppend,
        replaceFirst_strip_self [] ("http://".data) (by decide), List.nil_append,
        strMkData]
    rw [buildUrl, hch]

theorem connect_url_always_https_witness :
    jsTrim ("http://" ++ "example.com") = "http://" ++ "example.com" ∧
    hasSubstr ("https://".data) (("http://" ++ "example.com").data) = false ∧
    buildUrl ("http://" ++ "example.com") "8443" =
      "https://" ++ "example.com" ++ ":" ++ "8443" := by
  refine ⟨by decide, by decide, ?_⟩
  exact (connect_url_always_https "example.com" "8443" "example.com"
    (by decide) (by decide)).2

/-- C1 counterexample: the invalid pair (clickhouse, clickhouse), with no
live client but a stored config and a store that answers the liveness query,
is rejected as an invalid combination *after* a reconnect liveness query has
already been issued — so the rejection does not precede all I/O. -/
theorem ingest_invalid_pair_runs_liveness_query_cex :
    (ingestDispatch true
        { client := false,
          connectionConfig := some
            { url := "https://h:1", username := "u", password := "p", database := "d" } }
        { source := "clickhouse", target := "clickhouse", filePath := none,
          targetTable := none }).1 = IngestResponse.invalidCombination ∧
    (ingestDispatch true
        { client := false,
          connectionConfig := some
            { url := "https://h:1", username := "u", password := "p", database := "d" } }
        { source := "clickhouse", target := "clickhouse", filePath := none,
          targetTable := none }).2.2 = 1 := by
  decide

/-- C1 (amended): for an invalid (source, target) pair, if neither side is
`"clickhouse"` the handler returns the invalid-combination rejection with no
liveness query and no state change; if either side is `"clickhouse"`,
`ensureConnection` runs first — possibly issuing its reconnect liveness
query — and the handler returns invalid-combination only when that check
succeeds, and the not-connected rejection when it fails.  No transfer
function is dispatched either way, so no file is read or written and no
further statement is issued. -/
theorem ingest_invalid_pair_rejection (ok : Bool) (s : ServerState) (req : IngestRequest)
    (h1 : ¬(req.source = "clickhouse" ∧ req.target = "flatfile"))
    (h2 : ¬(req.source = "flatfile" ∧ req.target = "clickhouse")) :
    (req.source ≠ "clickhouse" → req.target ≠ "clickhouse" →
      ingestDispatch ok s req = (IngestResponse.invalidCombination, s, 0)) ∧
    ((req.source = "clickhouse" ∨ req.target = "clickhouse") →
      (ensureConnection ok s).1 = true →
      ingestDispatch ok s req =
        (IngestResponse.invalidCombination,
         (ensureConnection ok s).2.1, (ensureConnection ok s).2.2)) ∧
    ((req.source = "clickhouse" ∨ req.target = "clickhouse") →
      (ensureConnection ok s).1 = false →
      ingestDispatch ok s req =
        (IngestResponse.notConnected,
         (ensureConnection ok s).2.1, (ensureConnection ok s).2.2)) := by
  have hcf : ("clickhouse" : String) ≠ "flatfile" := by decide
  have hfc : ("flatfile" : String) ≠ "clickhouse" := by decide
  refine ⟨?_, ?_, ?_⟩
  · intro hs ht
    simp [ingestDispatch, hs, ht]
  · intro hd hens
    rcases hd with hl | hr
    · have ht2 : req.target ≠ "flatfile" := fun hf => h1 ⟨hl, hf⟩
      simp [ingestDispatch, hl, hens, ht2, hcf]
    · have hs2 : req.source ≠ "flatfile" := fun hf => h2 ⟨hf, hr⟩
      simp [ingestDispatch, hr, hens, hs2, hfc.symm]
  · intro hd hens
    rcases hd with hl | hr
    · simp [ingestDispatch, hl, hens]
    · simp [ingestDispatch, hr, hens]

theorem ingest_invalid_pair_rejection_witness :
    ¬(("clickhouse" : String) = "clickhouse" ∧ ("clickhouse" : String) = "flatfile") ∧
    (ensureConnection true { client := true, connectionConfig := none }).1 = true ∧
    ingestDispatch true { client := true, connectionConfig := none }
        { source := "clickhouse", target := "clickhouse", filePath := none,
          targetTable := none } =
      (IngestResponse.invalidCombination, { client := true, connectionConfig := none }, 0) := by
  refine ⟨by decide, by decide, ?_⟩
  have h := ingest_invalid_pair_rejection true { client := true, connectionConfig := none }
    { source := "clickhouse", target := "clickhouse", filePath := none, targetTable := none }
    (by decide) (by decide)
  exact h.2.1 (Or.inl rfl) (by decide)

/-- C7: for every import with at least one parsed record, the one create
statement issued is inferred from the key set of the first parsed record
only, types every column `String`, is conditional (`IF NOT EXISTS`) and has
no explicit ordering key (`ORDER BY tuple()`). -/
theorem import_schema_from_first_record_only (createOk : Bool) (insertOk : Nat → Bool)
    (tbl : String) (r0 : Row) (rs : List Row) :
    (flatFileToClickhouse true createOk insertOk (r0 :: rs) tbl).1.created =
      [createStmtFor tbl r0] ∧
    (createStmtFor tbl r0).ifNotExists = true ∧
    (createStmtFor tbl r0).columnDefs = (rowKeys r0).map (fun c => (c, "String")) ∧
    (createStmtFor tbl r0).orderBy = "tuple()" ∧
    ∀ cd ∈ (createStmtFor tbl r0).columnDefs, cd.2 = "String" := by
  refine ⟨?_, rfl, rfl, rfl, ?_⟩
  · cases createOk with
    | false => rfl
    | true =>
        simp only [flatFileToClickhouse, if_true]
        split <;> rfl
  · intro cd hcd
    simp only [createStmtFor] at hcd
    rcases List.mem_map.1 hcd with ⟨a, _, rfl⟩
    rfl

/-- C8: when the tables' queries together yield an empty combined row
sequence, the export returns a zero-record result and writes no file. -/
theorem export_empty_writes_no_file
    (runQ : SelectQuery → Except String (List Row))
    (columnsFor : String → List String) (tables : List String)
    (targetFile : Option String) (n : Nat)
    (h : gatherRows runQ columnsFor tables = Except.ok ([], n)) :
    clickhouseToFlatFile true runQ columnsFor tables targetFile =
      Except.ok ({ recordCount := 0, filePath := none }, none) := by
  simp [clickhouseToFlatFile, h]

theorem export_empty_writes_no_file_witness :
    gatherRows (fun _ => Except.ok []) (fun _ => []) ["t1", "t2"] =
      Except.ok (([] : List Row), 0) ∧
    clickhouseToFlatFile true (fun _ => Except.ok []) (fun _ => []) ["t1", "t2"]
        (some "out.csv") =
      Except.ok ({ recordCount := 0, filePath := none }, none) :=
  ⟨rfl, export_empty_writes_no_file (fun _ => Except.ok []) (fun _ => []) ["t1", "t2"]
    (some "out.csv") 0 rfl⟩

/-- C9: the preview requires `ensure()` to succeed; the projection clause is
the literal `*` for an empty column list and the joined columns otherwise;
the issued query carries `LIMIT 100` and the store returns at most 100 rows. -/
theorem preview_projection_and_limit (store : String → List Row)
    (tbl : String) (cols : List String) :
    previewHandler false store tbl cols = Except.error "Not connected to ClickHouse" ∧
    (previewQuery tbl []).projection = "*" ∧
    (cols ≠ [] → (previewQuery tbl cols).projection = String.intercalate ", " cols) ∧
    (previewQuery tbl cols).lim = some 100 ∧
    ∀ out, previewHandler true store tbl cols = Except.ok out → out.length ≤ 100 := by
  refine ⟨rfl, rfl, ?_, rfl, ?_⟩
  · intro h
    simp [previewQuery, projectionOf, List.length_pos.2 h]
  · intro out h
    have hout : out = runSelect store (previewQuery tbl cols) := by
      simpa [previewHandler] using h.symm
    subst hout
    simp only [runSelect, previewQuery]
    rw [List.length_take]
    exact min_le_left _ _

theorem preview_projection_and_limit_witness :
    (["a", "b"] : List String) ≠ [] ∧
    (previewQuery "t" ["a", "b"]).projection = String.intercalate ", " ["a", "b"] ∧
    previewHandler true (fun _ => []) "t" ["a", "b"] = Except.ok [] ∧
    ([] : List Row).length ≤ 100 := by
  refine ⟨by decide, ?_, rfl, ?_⟩
  · exact (preview_projection_and_limit (fun _ => []) "t" ["a", "b"]).2.2.1 (by decide)
  · exact (preview_projection_and_limit (fun _ => []) "t" ["a", "b"]).2.2.2.2 [] rfl

theorem import_schema_from_first_record_only_witness :
    (flatFileToClickhouse true true (fun _ => true)
        [[("name", "Alice"), ("age", "30")], [("name", "Bob"), ("age", "25")]]
        "t1").1.created =
      [createStmtFor "t1" [("name", "Alice"), ("age", "30")]] ∧
    (("name", "String") : String × String).2 = "String" := by
  have h := import_schema_from_first_record_only true (fun _ => true) "t1"
    [("name", "Alice"), ("age", "30")] [[("name", "Bob"), ("age", "25")]]
  exact ⟨h.1, h.2.2.2.2 ("name", "String") (by decide)⟩

theorem insertLoop_fails_at (insertOk : Nat → Bool) (tbl : String) :
    ∀ (rows : List Row) (st k : Nat), k < rows.length →
      (∀ j, j < k → insertOk (st + j) = true) → insertOk (st + k) = false →
      insertLoop insertOk tbl rows st =
        ((rows.take (k + 1)).map (mkInsert tbl),
         (rows.take k).map (mkInsert tbl), some (st + k)) := by
  intro rows
  induction rows with
  | nil => intro st k hk _ _; simp at hk
  | cons r rs ih =>
      intro st k hk hpre hfail
      cases k with
      | zero =>
          simp only [Nat.add_zero] at hfail
          simp [insertLoop, hfail]
      | succ k =>
          have h0 : insertOk st = true := by
            have := hpre 0 (Nat.succ_pos k)
            simpa using this
          have hpre2 : ∀ j, j < k → insertOk (st + 1 + j) = true := by
            intro j hj
            have := hpre (j + 1) (by omega)
            have harith : st + (j + 1) = st + 1 + j := by omega
            rw [harith] at this
            exact this
          have hfail2 : insertOk (st + 1 + k) = false := by
            have harith : st + (k + 1) = st + 1 + k := by omega
            rw [harith] at hfail
            exact hfail
          have hk2 : k < rs.length := by simpa using hk
          have hrec := ih (st + 1) k hk2 hpre2 hfail2
          rw [insertLoop, if_pos h0, hrec]
          have harith : st + 1 + k = st + (k + 1) := by omega
          simp [harith, List.take_succ_cons]

theorem insertLoop_all_ok (insertOk : Nat → Bool) (tbl : String) :
    ∀ (rows : List Row) (st : Nat), (∀ j, j < rows.length → insertOk (st + j) = true) →
      insertLoop insertOk tbl rows st =
        (rows.map (mkInsert tbl), rows.map (mkInsert tbl), none) := by
  intro rows
  induction rows with
  | nil => intro st _; rfl
  | cons r rs ih =>
      intro st hok
      have h0 : insertOk st = true := by
        have := hok 0 (Nat.succ_pos rs.length)
        simpa using this
      have hok2 : ∀ j, j < rs.length → insertOk (st + 1 + j) = true := by
        intro j hj
        have := hok (j + 1) (by simpa using Nat.succ_lt_succ hj)
        have harith : st + (j + 1) = st + 1 + j := by omega
        rw [harith] at this
        exact this
      rw [insertLoop, if_pos h0, ih (st + 1) hok2]
      simp

/-- C3: when the k-th insert (0-based) of an import fails and all earlier
inserts succeeded, the import returns an error rather than a success result;
the earlier inserts remain committed in file order (no rollback); the failing
insert was attempted; and no later record's insert is ever attempted.
Inserts are issued one at a time, in file order. -/
theorem import_abort_on_failed_insert (insertOk : Nat → Bool) (rows : List Row)
    (tbl : String) (k : Nat) (hk : k < rows.length)
    (hpre : ∀ j, j < k → insertOk j = true) (hfail : insertOk k = false) :
    (flatFileToClickhouse true true insertOk rows tbl).2 = ImportOutcome.error k ∧
    (flatFileToClickhouse true true insertOk rows tbl).1.committed =
      (rows.take k).map (mkInsert tbl) ∧
    (flatFileToClickhouse true true insertOk rows tbl).1.attempted =
      (rows.take (k + 1)).map (mkInsert tbl) := by
  cases rows with
  | nil => simp at hk
  | cons r0 rs =>
      have hloop := insertLoop_fails_at insertOk tbl (r0 :: rs) 0 k hk
        (by intro j hj; simpa using hpre j hj) (by simpa using hfail)
      refine ⟨?_, ?_, ?_⟩ <;>
        simp [flatFileToClickhouse, hloop]

theorem import_abort_on_failed_insert_witness :
    (2 : Nat) < ([[("a", "1")], [("a", "2")], [("a", "3")], [("a", "4")], [("a", "5")]] :
      List Row).length ∧
    (fun i => !(i == 2) : Nat → Bool) 2 = false ∧
    (flatFileToClickhouse true true (fun i => !(i == 2))
        [[("a", "1")], [("a", "2")], [("a", "3")], [("a", "4")], [("a", "5")]] "t1").2 =
      ImportOutcome.error 2 ∧
    (flatFileToClickhouse true true (fun i => !(i == 2))
        [[("a", "1")], [("a", "2")], [("a", "3")], [("a", "4")], [("a", "5")]] "t1").1.committed =
      [mkInsert "t1" [("a", "1")], mkInsert "t1" [("a", "2")]] := by
  have h := import_abort_on_failed_insert (fun i => !(i == 2))
    [[("a", "1")], [("a", "2")], [("a", "3")], [("a", "4")], [("a", "5")]] "t1" 2
    (by decide) (by intro j hj; interval_cases j <;> rfl) (by decide)
  exact ⟨by decide, by decide, h.1, by rw [h.2.1]; rfl⟩

theorem export_gather_error_eq (runQ : SelectQuery → Except String (List Row))
    (columnsFor : String → List String) (tables : List String)
    (targetFile : Option String) (e : String)
    (hg : gatherRows runQ columnsFor tables = Except.error e) :
    clickhouseToFlatFile true runQ columnsFor tables targetFile = Except.error e := by
  simp [clickhouseToFlatFile, hg]

theorem export_empty_eq (runQ : SelectQuery → Except String (List Row))
    (columnsFor : String → List String) (tables : List String)
    (targetFile : Option String) (n : Nat)
    (hg : gatherRows runQ columnsFor tables = Except.ok ([], n)) :
    clickhouseToFlatFile true runQ columnsFor tables targetFile =
      Except.ok ({ recordCount := 0, filePath := none }, none) := by
  simp [clickhouseToFlatFile, hg]

theorem export_nonempty_eq (runQ : SelectQuery → Except String (List Row))
    (columnsFor : String → List String) (tables : List String)
    (targetFile : Option String) (r0 : Row) (rest : List Row) (n : Nat)
    (hg : gatherRows runQ columnsFor tables = Except.ok (r0 :: rest, n)) :
    clickhouseToFlatFile true runQ columnsFor tables targetFile =
      Except.ok
        ({ recordCount := n,
           filePath := some (basename (jsOrDefault targetFile "export.csv")) },
         some { name := basename (jsOrDefault targetFile "export.csv")
                header := rowKeys r0
                rows := (r0 :: rest).map (renderRow (rowKeys r0)) }) := by
  simp [clickhouseToFlatFile, hg]

/-- C4: for a non-empty accumulated row sequence, the written file's header
is exactly the key list of the first accumulated row, in that row's key
insertion order; every row is rendered through that header only, so a later
row's extra fields are omitted (each rendered row has exactly one cell per
header field), and a first-row field missing from a later row renders as the
empty string. -/
theorem export_header_from_first_row (runQ : SelectQuery → Except String (List Row))
    (columnsFor : String → List String) (tables : List String)
    (targetFile : Option String) (r0 : Row) (rest : List Row) (n : Nat)
    (hg : gatherRows runQ columnsFor tables = Except.ok (r0 :: rest, n)) :
    clickhouseToFlatFile true runQ columnsFor tables targetFile =
      Except.ok
        ({ recordCount := n,
           filePath := some (basename (jsOrDefault targetFile "export.csv")) },
         some { name := basename (jsOrDefault targetFile "export.csv")
                header := rowKeys r0
                rows := (r0 :: rest).map (renderRow (rowKeys r0)) }) ∧
    (∀ r : Row, (renderRow (rowKeys r0) r).length = (rowKeys r0).length) ∧
    (∀ (r : Row) (k : String), rowLookup r k = none → renderCell r k = "") := by
  refine ⟨export_nonempty_eq runQ columnsFor tables targetFile r0 rest n hg, ?_, ?_⟩
  · intro r
    simp [renderRow]
  · intro r k hk
    simp [renderCell, hk]

theorem export_header_from_first_row_witness :
    gatherRows
        (fun _ => Except.ok [[("a", "1"), ("b", "2")], [("a", "3"), ("b", "4"), ("c", "5")]])
        (fun _ => []) ["t"] =
      Except.ok ([[("a", "1"), ("b", "2")], [("a", "3"), ("b", "4"), ("c", "5")]], 2) ∧
    clickhouseToFlatFile true
        (fun _ => Except.ok [[("a", "1"), ("b", "2")], [("a", "3"), ("b", "4"), ("c", "5")]])
        (fun _ => []) ["t"] none =
      Except.ok
        ({ recordCount := 2, filePath := some "export.csv" },
         some { name := "export.csv", header := ["a", "b"],
                rows := [["1", "2"], ["3", "4"]] }) := by
  constructor
  · rfl
  · have h := (export_header_from_first_row
      (fun _ => Except.ok [[("a", "1"), ("b", "2")], [("a", "3"), ("b", "4"), ("c", "5")]])
      (fun _ => []) ["t"] none
      [("a", "1"), ("b", "2")] [[("a", "3"), ("b", "4"), ("c", "5")]] 2 rfl).1
    rw [h]
    rfl

/-- C5: the file name used on disk for an export is the bare basename of the
caller-supplied target name (default `export.csv` when absent), containing no
path separator; the export result carries that sanitized name, not a path;
and the download handler likewise resolves only the basename of the supplied
filename — `../../etc/passwd` resolves to `passwd` in both cases. -/
theorem export_download_filename_sanitized
    (runQ : SelectQuery → Except String (List Row))
    (columnsFor : String → List String) (tables : List String)
    (tf : Option String) (res : ExportResult) (file : WrittenFile)
    (h : clickhouseToFlatFile true runQ columnsFor tables tf = Except.ok (res, some file)) :
    file.name = basename (jsOrDefault tf "export.csv") ∧
    res.filePath = some file.name ∧
    Char.ofNat 47 ∉ file.name.data ∧
    (tf = none → file.name = "export.csv") ∧
    basename "../../etc/passwd" = "passwd" ∧
    (∀ f : String, Char.ofNat 47 ∉ (downloadSafeName f).data) ∧
    downloadSafeName "../../etc/passwd" = "passwd" := by
  have hshape : file.name = basename (jsOrDefault tf "export.csv") ∧
      res.filePath = some file.name := by
    rcases hg : gatherRows runQ columnsFor tables with e | ⟨results, n⟩
    · rw [export_gather_error_eq runQ columnsFor tables tf e hg] at h
      exact absurd h (by simp)
    · cases results with
      | nil =>
          rw [export_empty_eq runQ columnsFor tables tf n hg] at h
          simp at h
      | cons r0 rest =>
          rw [export_nonempty_eq runQ columnsFor tables tf r0 rest n hg] at h
          simp only [Except.ok.injEq, Prod.mk.injEq, Option.some.injEq] at h
          obtain ⟨hres, hfile⟩ := h
          subst hfile
          subst hres
          exact ⟨rfl, rfl⟩
  refine ⟨hshape.1, hshape.2, ?_, ?_, by decide, basename_sep_free, by decide⟩
  · rw [hshape.1]
    exact basename_sep_free _
  · intro htf
    subst htf
    rw [hshape.1]
    decide

theorem export_download_filename_sanitized_witness :
    clickhouseToFlatFile true (fun _ => Except.ok [[("a", "1")]]) (fun _ => []) ["t"]
        (some "../../etc/passwd") =
      Except.ok
        ({ recordCount := 1, filePath := some "passwd" },
         some { name := "passwd", header := ["a"], rows := [["1"]] }) ∧
    ({ name := "passwd", header := ["a"], rows := [["1"]] } : WrittenFile).name =
      basename (jsOrDefault (some "../../etc/passwd") "export.csv") ∧
    Char.ofNat 47 ∉
      ({ name := "passwd", header := ["a"], rows := [["1"]] } : WrittenFile).name.data := by
  have hfile : clickhouseToFlatFile true (fun _ => Except.ok [[("a", "1")]]) (fun _ => [])
      ["t"] (some "../../etc/passwd") =
      Except.ok
        ({ recordCount := 1, filePath := some "passwd" },
         some { name := "passwd", header := ["a"], rows := [["1"]] }) := by
    rfl
  have h := export_download_filename_sanitized (fun _ => Except.ok [[("a", "1")]])
    (fun _ => []) ["t"] (some "../../etc/passwd")
    { recordCount := 1, filePath := some "passwd" }
    { name := "passwd", header := ["a"], rows := [["1"]] } hfile
  exact ⟨hfile, h.1, h.2.2.1⟩
